import Mathlib

/-!
Shallow embedding of the Bluetooth connection manager in
`src-tauri/src/lib.rs` (the main variant) and `src-tauri/src/bluetooth.rs`
(the simplified variant).

The external transport (`BluetoothSocket`) is modelled by oracle parameters:
each fallible transport operation (`connect`, `write_all`, `flush`, `close`)
is an `Except String Unit` argument giving the outcome the transport would
report, and the read loop consumes a finite list of read outcomes.  The
registry (`AppState.connections : RwLock<HashMap<String, _>>`) is modelled by
its key set as a list of peer addresses.  Event emission (`emit_all`) is
modelled by returning the list of emitted events in order.  Lock acquisition
and blocking transport calls are additionally modelled as action traces that
follow the Rust guard scopes (a guard's release happens where Rust drops it).
-/

namespace TauriBluetooth

/-- Peer identifier: the device MAC address string used as the HashMap key. -/
abbrev PeerId := String

/-- Mirrors `StatusPayload` in lib.rs: the payload of a `bluetooth-status`
lifecycle event sent to the frontend. -/
structure StatusPayload where
  address : PeerId
  status : String
  error : Option String
deriving DecidableEq, Repr

/-- An event emitted to the frontend via `emit_all`: either a
`bluetooth-status` lifecycle event or a `bluetooth-data` data event
(mirroring `Payload` in lib.rs). -/
inductive Event
  | status (p : StatusPayload)
  | data (address : PeerId) (bytes : List Nat)
deriving DecidableEq, Repr

/-- The connection registry, modelled as the key set of
`AppState.connections`. -/
abbrev Registry := List PeerId

/-- `HashMap::insert` on the key set: keys stay unique. -/
def insertKey (k : PeerId) (r : Registry) : Registry :=
  if r.contains k then r else k :: r

/-- `HashMap::remove` on the key set. -/
def removeKey (k : PeerId) (r : Registry) : Registry :=
  r.filter (fun x => x ≠ k)

/-- Result of one invocation of `connect_device_command`. -/
structure ConnectOutcome where
  result : Except String Unit
  events : List Event
  registry : Registry
  spawned : Bool
deriving Repr

/-- Embedding of `connect_device_command` (lib.rs lines 74-199).
`bonded` is the outcome of `get_bonded_devices()` (device addresses),
`buildRes` of `build_rfcomm_socket`, `connectRes` of `socket.connect()`.
`spawned` records whether the background read thread was spawned. -/
def connect_device_command (address : PeerId) (registry : Registry)
    (bonded : Except String (List PeerId))
    (buildRes : Except String Unit)
    (connectRes : Except String Unit) : ConnectOutcome :=
  if registry.contains address then
    { result := .ok (),
      events := [.status ⟨address, "already_connected", none⟩],
      registry := registry, spawned := false }
  else
    match bonded with
    | .error e => { result := .error e, events := [], registry := registry, spawned := false }
    | .ok devs =>
      if devs.contains address then
        match buildRes with
        | .error e => { result := .error e, events := [], registry := registry, spawned := false }
        | .ok _ =>
          match connectRes with
          | .error e =>
            { result := .error e,
              events := [.status ⟨address, "connection_failed", some e⟩],
              registry := registry, spawned := false }
          | .ok _ =>
            { result := .ok (),
              events := [.status ⟨address, "connected", none⟩],
              registry := insertKey address registry, spawned := true }
      else
        { result := .error "Device not found among bonded devices",
          events := [], registry := registry, spawned := false }

/-- Result of one invocation of `send_data_command`. -/
structure SendOutcome where
  result : Except String Unit
  registry : Registry
  events : List Event
deriving Repr

/-- Embedding of `send_data_command` (lib.rs lines 205-228).
`writeRes` is the outcome of `socket.write_all(&data)`, `flushRes`
of `socket.flush()`.  The function never emits events and never
mutates the registry (it only holds a read guard). -/
def send_data_command (address : PeerId) (data : List Nat) (registry : Registry)
    (writeRes flushRes : Except String Unit) : SendOutcome :=
  if registry.contains address then
    match writeRes with
    | .error e => { result := .error e, registry := registry, events := [] }
    | .ok _ =>
      match flushRes with
      | .error e => { result := .error e, registry := registry, events := [] }
      | .ok _ => { result := .ok (), registry := registry, events := [] }
  else
    { result := .error "Device not connected", registry := registry, events := [] }

/-- Result of one invocation of `disconnect_device_command`. -/
structure DisconnectOutcome where
  result : Except String Unit
  registry : Registry
  events : List Event
deriving Repr

/-- Embedding of `disconnect_device_command` (lib.rs lines 233-252).
The record is removed by `connections_lock.remove(&address)` before the
close is attempted, so the removal stands even when `closeRes` is an
error.  No event is emitted on any path. -/
def disconnect_device_command (address : PeerId) (registry : Registry)
    (closeRes : Except String Unit) : DisconnectOutcome :=
  if registry.contains address then
    match closeRes with
    | .error e => { result := .error e, registry := removeKey address registry, events := [] }
    | .ok _ => { result := .ok (), registry := removeKey address registry, events := [] }
  else
    { result := .error "Device not connected", registry := registry, events := [] }

/-- One outcome of `socket.read(&mut read_buf)` in the receive loop, paired
with the value `is_connected` would report when the loop consults it
(it consults it only in the `Ok(0)` and timeout branches). -/
inductive ReadStep
  | ok (bytes : List Nat) (stillConnected : Bool)
  | timeout (stillConnected : Bool)
  | fatal (e : String)
deriving DecidableEq, Repr

/-- The read-thread loop body (lib.rs lines 136-183) run over a finite list
of read outcomes: returns the events emitted inside the loop, and whether
the loop has broken out (`true`) or is still running when the outcomes run
out (`false`). -/
def loopBody (address : PeerId) : List ReadStep → List Event × Bool
  | [] => ([], false)
  | step :: rest =>
    match step with
    | .ok bytes sc =>
      if bytes.length > 0 then
        let r := loopBody address rest
        (.data address bytes :: r.1, r.2)
      else if sc then loopBody address rest
      else ([], true)
    | .timeout sc =>
      if sc then loopBody address rest else ([], true)
    | .fatal e => ([.status ⟨address, "error", some e⟩], true)

/-- The whole read thread (lib.rs lines 133-195): the loop body, then — when
the loop has broken out — removal of the address from the registry and the
final `disconnected` event. -/
def readThread (address : PeerId) (steps : List ReadStep) (registry : Registry) :
    List Event × Registry :=
  let r := loopBody address steps
  if r.2 then
    (r.1 ++ [.status ⟨address, "disconnected", none⟩], removeKey address registry)
  else (r.1, registry)

/-- Modelled from the spec (section 4.5): the byte payloads the notification
sink should receive, one per successful non-empty read, in read order, up to
the loop's termination point. -/
def specDataReads : List ReadStep → List (List Nat)
  | [] => []
  | .ok bytes sc :: rest =>
    if bytes.length > 0 then bytes :: specDataReads rest
    else if sc then specDataReads rest else []
  | .timeout sc :: rest => if sc then specDataReads rest else []
  | .fatal _ :: _ => []

/-- Extract the byte payloads of the data events from an event list. -/
def dataPayloads : List Event → List (List Nat)
  | [] => []
  | .data _ bytes :: rest => bytes :: dataPayloads rest
  | .status _ :: rest => dataPayloads rest

/-- Lock and transport actions, used to model lock discipline.  Release
actions are placed where Rust drops the corresponding guard (end of its
scope, or an explicit `drop`).  `brk` marks `break` in the read loop. -/
inductive Act
  | regReadAcquire | regReadRelease
  | regWriteAcquire | regWriteRelease
  | handleLock | handleUnlock
  | tConnect | tRead | tWrite | tFlush | tClose | tIsConnected
  | sleepMs (n : Nat)
  | brk
deriving DecidableEq, Repr

/-- The blocking transport operations named by the spec: connect, read,
write/flush, close (`is_connected` is not listed among them). -/
def Act.isBlockingTransport : Act → Bool
  | tConnect | tRead | tWrite | tFlush | tClose => true
  | _ => false

/-- Action trace of `connect_device_command`.  The registry read guard lives
only in the block at lines 79-91 (`// Lock released here`); the transport
connect at line 104 holds only the per-handle lock of a temporary guard;
the insertion at line 118 takes the write guard as a temporary.
`present` is the outcome of the `contains_key` check; the remaining
booleans are whether `get_bonded_devices`, the `find`, `build_rfcomm_socket`
and `socket.connect()` succeed. -/
def connect_trace (present bondedOk found buildOk connectOk : Bool) : List Act :=
  [.regReadAcquire, .regReadRelease] ++
  if present then []
  else if bondedOk = false then []
  else if found = false then []
  else if buildOk = false then []
  else [.handleLock, .tConnect, .handleUnlock] ++
    if connectOk then [.regWriteAcquire, .regWriteRelease] else []

/-- Action trace of `send_data_command`.  `connections_lock` (the registry
read guard, line 207) and `socket` (the per-handle guard, line 212) are
locals dropped only at function exit, so both stay held across the write
and the flush; a failed write returns before the flush. -/
def send_trace (present writeOk : Bool) : List Act :=
  if present then
    [.regReadAcquire, .handleLock, .tWrite] ++
    (if writeOk then [.tFlush] else []) ++
    [.handleUnlock, .regReadRelease]
  else [.regReadAcquire, .regReadRelease]

/-- Action trace of `disconnect_device_command`.  The registry write guard
(line 235) and the per-handle guard (line 239) are locals dropped only at
function exit, so both stay held across `socket.close()`. -/
def disconnect_trace (present : Bool) : List Act :=
  if present then
    [.regWriteAcquire, .handleLock, .tClose, .handleUnlock, .regWriteRelease]
  else [.regWriteAcquire, .regWriteRelease]

/-- Action trace of one read-loop iteration (lib.rs lines 136-183).  The
`Ok(0)` branch explicitly drops the socket guard, sleeps 50 ms, then locks
again for `is_connected`; the timeout branch drops the guard and rechecks
`is_connected` with no sleep; a fatal error breaks out (guard dropped at
scope exit). -/
def iterTrace (step : ReadStep) : List Act :=
  match step with
  | .ok bytes sc =>
    if bytes.length > 0 then [.handleLock, .tRead, .handleUnlock]
    else [.handleLock, .tRead, .handleUnlock, .sleepMs 50,
          .handleLock, .tIsConnected, .handleUnlock]
      ++ (if sc then [] else [.brk])
  | .timeout sc =>
    [.handleLock, .tRead, .handleUnlock, .handleLock, .tIsConnected, .handleUnlock]
      ++ (if sc then [] else [.brk])
  | .fatal _ => [.handleLock, .tRead, .handleUnlock, .brk]

/-- Annotate each action of a trace with whether a registry lock (read or
write) is held while it executes, given `n` registry guards currently held. -/
def markRegHeld : List Act → Nat → List (Act × Bool)
  | [], _ => []
  | a :: rest, n =>
    match a with
    | .regReadAcquire => (a, decide (0 < n)) :: markRegHeld rest (n + 1)
    | .regWriteAcquire => (a, decide (0 < n)) :: markRegHeld rest (n + 1)
    | .regReadRelease => (a, decide (0 < n)) :: markRegHeld rest (n - 1)
    | .regWriteRelease => (a, decide (0 < n)) :: markRegHeld rest (n - 1)
    | _ => (a, decide (0 < n)) :: markRegHeld rest n

/-- Annotate each action with whether the per-handle lock is held while it
executes. -/
def markHandleHeld : List Act → Nat → List (Act × Bool)
  | [], _ => []
  | a :: rest, n =>
    match a with
    | .handleLock => (a, decide (0 < n)) :: markHandleHeld rest (n + 1)
    | .handleUnlock => (a, decide (0 < n)) :: markHandleHeld rest (n - 1)
    | _ => (a, decide (0 < n)) :: markHandleHeld rest n

/-- No registry lock is held during any blocking transport action. -/
def noRegDuringBlocking (trace : List Act) : Bool :=
  (markRegHeld trace 0).all (fun p => !(p.1.isBlockingTransport && p.2))

/-- Some blocking transport action runs while a registry lock is held. -/
def someBlockingUnderReg (trace : List Act) : Bool :=
  (markRegHeld trace 0).any (fun p => p.1.isBlockingTransport && p.2)

/-- Every blocking transport action runs while the per-handle lock is held. -/
def handleHeldDuringBlocking (trace : List Act) : Bool :=
  (markHandleHeld trace 0).all (fun p => !p.1.isBlockingTransport || p.2)

/-- A trace touches the transport if it has any transport action at all. -/
def touchesTransport (trace : List Act) : Bool :=
  trace.any (fun a =>
    a.isBlockingTransport || a = .tIsConnected)

/-- A sleep action of any duration. -/
def Act.isSleep : Act → Bool
  | sleepMs _ => true
  | _ => false

/-! ## The simplified variant in `src-tauri/src/bluetooth.rs` -/

/-- What the spawned thread in `bluetooth.rs` lines 35-52 prints.  On connect
failure it only logs; on success it logs, attempts one write whose error is
only logged, then one read whose result is logged on success and silently
dropped on error. -/
inductive BtLog
  | connectFailed (e : String)
  | connectedOk
  | writeError (e : String)
  | received (bytes : List Nat)
deriving DecidableEq, Repr

/-- Embedding of the spawned thread body of `connect_to_device` in
`bluetooth.rs`: `writeRes` is the outcome of `socket.write(b"AT")`,
`readRes` of `socket.read(&mut buf)`. -/
def bt_thread_logs (connectRes : Except String Unit)
    (writeRes : Except String Unit)
    (readRes : Except String (List Nat)) : List BtLog :=
  match connectRes with
  | .error e => [.connectFailed e]
  | .ok _ =>
    .connectedOk ::
    (match writeRes with
     | .error e => [.writeError e]
     | .ok _ => []) ++
    (match readRes with
     | .ok buf => [.received buf]
     | .error _ => [])

/-- Embedding of `connect_to_device` in `bluetooth.rs` (lines 17-55): the
command's return value.  The socket connect happens only inside the spawned
thread, so `connectRes` cannot influence this value; after a successful
socket build the function returns `Ok(())` unconditionally. -/
def connect_to_device (device_addr : String) (uuid : String)
    (bonded : Except String (List String))
    (buildRes : Except String Unit)
    (connectRes : Except String Unit) : Except String Unit :=
  match bonded with
  | .error e => .error e
  | .ok devs =>
    if devs.contains device_addr then
      match buildRes with
      | .error e => .error e
      | .ok _ =>
        -- thread spawned here; `connectRes` is consumed only by `bt_thread_logs`
        .ok ()
    else .error ("Device not found: " ++ device_addr)

/-! ## Helper lemmas -/

theorem removeKey_not_mem (k : PeerId) (r : Registry) : k ∉ removeKey k r := by
  simp [removeKey]

theorem removeKey_of_not_mem (k : PeerId) (r : Registry) (h : k ∉ r) :
    removeKey k r = r := by
  refine List.filter_eq_self.mpr ?_
  intro b hb
  simp only [ne_eq, decide_eq_true_eq]
  rintro rfl
  exact h hb

theorem mem_insertKey (k p : PeerId) (r : Registry) (h : p ∈ r) :
    p ∈ insertKey k r := by
  unfold insertKey
  split <;> simp [h]

/-! ## Claims -/

/-- C1: a `connect_device_command` invocation whose transport-level connect
fails emits a single `connection_failed` lifecycle event, returns the error,
and leaves the registry unchanged; no record for the address is inserted. -/
theorem connect_failed_leaves_registry (address : PeerId) (registry : Registry)
    (devs : List PeerId) (e : String)
    (hpres : address ∉ registry) (hfound : address ∈ devs) :
    connect_device_command address registry (.ok devs) (.ok ()) (.error e) =
      { result := .error e,
        events := [.status ⟨address, "connection_failed", some e⟩],
        registry := registry, spawned := false } ∧
    address ∉ (connect_device_command address registry (.ok devs) (.ok ()) (.error e)).registry := by
  constructor
  · simp [connect_device_command, hpres, hfound]
  · simp [connect_device_command, hpres, hfound]

/-- Witness for C1 at a concrete input. -/
theorem connect_failed_leaves_registry_witness :
    connect_device_command "AA" [] (.ok ["AA"]) (.ok ()) (.error "boom") =
      { result := .error "boom",
        events := [.status ⟨"AA", "connection_failed", some "boom"⟩],
        registry := [], spawned := false } ∧
    "AA" ∉ (connect_device_command "AA" [] (.ok ["AA"]) (.ok ()) (.error "boom")).registry :=
  connect_failed_leaves_registry "AA" [] ["AA"] "boom" (by simp) (by simp)

/-- C2: when the address is present, `disconnect_device_command` removes the
record unconditionally: even when the close fails and the close error is
returned, the registry no longer contains the address; the successful close
removes it as well. -/
theorem disconnect_removes_record (address : PeerId) (registry : Registry)
    (e : String) (hpres : address ∈ registry) :
    (disconnect_device_command address registry (.error e)).registry = removeKey address registry ∧
    address ∉ (disconnect_device_command address registry (.error e)).registry ∧
    (disconnect_device_command address registry (.error e)).result = .error e ∧
    (disconnect_device_command address registry (.ok ())).registry = removeKey address registry ∧
    address ∉ (disconnect_device_command address registry (.ok ())).registry := by
  refine ⟨?_, ?_, ?_, ?_, ?_⟩ <;>
    simp [disconnect_device_command, hpres, removeKey]

/-- Witness for C2 at a concrete input. -/
theorem disconnect_removes_record_witness :
    (disconnect_device_command "AA" ["AA", "BB"] (.error "x")).registry = removeKey "AA" ["AA", "BB"] ∧
    "AA" ∉ (disconnect_device_command "AA" ["AA", "BB"] (.error "x")).registry ∧
    (disconnect_device_command "AA" ["AA", "BB"] (.error "x")).result = .error "x" ∧
    (disconnect_device_command "AA" ["AA", "BB"] (.ok ())).registry = removeKey "AA" ["AA", "BB"] ∧
    "AA" ∉ (disconnect_device_command "AA" ["AA", "BB"] (.ok ())).registry :=
  disconnect_removes_record "AA" ["AA", "BB"] "x" (by simp)

/-- C3: for an address with no record in the registry, send and disconnect
both fail with "Device not connected", leave the registry unchanged, and
their action traces contain no transport action at all. -/
theorem not_connected_rejects (address : PeerId) (registry : Registry)
    (data : List Nat) (writeRes flushRes closeRes : Except String Unit)
    (writeOk : Bool) (habs : address ∉ registry) :
    (send_data_command address data registry writeRes flushRes).result =
      .error "Device not connected" ∧
    (send_data_command address data registry writeRes flushRes).registry = registry ∧
    (disconnect_device_command address registry closeRes).result =
      .error "Device not connected" ∧
    (disconnect_device_command address registry closeRes).registry = registry ∧
    touchesTransport (send_trace (registry.contains address) writeOk) = false ∧
    touchesTransport (disconnect_trace (registry.contains address)) = false := by
  have hc : registry.contains address = false := by simp [habs]
  refine ⟨?_, ?_, ?_, ?_, ?_, ?_⟩ <;>
    simp [send_data_command, disconnect_device_command, send_trace, disconnect_trace,
      touchesTransport, Act.isBlockingTransport, hc, habs]

/-- Witness for C3 at a concrete input. -/
theorem not_connected_rejects_witness :
    (send_data_command "AA" [1, 2] ["BB"] (.ok ()) (.ok ())).result =
      .error "Device not connected" ∧
    (send_data_command "AA" [1, 2] ["BB"] (.ok ()) (.ok ())).registry = ["BB"] ∧
    (disconnect_device_command "AA" ["BB"] (.ok ())).result =
      .error "Device not connected" ∧
    (disconnect_device_command "AA" ["BB"] (.ok ())).registry = ["BB"] ∧
    touchesTransport (send_trace (List.contains ["BB"] "AA") true) = false ∧
    touchesTransport (disconnect_trace (List.contains ["BB"] "AA")) = false :=
  not_connected_rejects "AA" ["BB"] [1, 2] (.ok ()) (.ok ()) (.ok ()) true (by simp)

/-- C4: a `connect_device_command` invocation with the address already
present emits `already_connected`, returns success, leaves the registry
unchanged and touches no transport; after a first successful connect
followed by a second connect the registry holds exactly one record for the
address. -/
theorem connect_already_connected (address : PeerId) (registry : Registry)
    (devs : List PeerId) (bonded2 : Except String (List PeerId))
    (build2 connect2 : Except String Unit) (b1 b2 b3 b4 : Bool)
    (habs : address ∉ registry) (hfound : address ∈ devs) :
    (connect_device_command address registry (.ok devs) (.ok ()) (.ok ())).registry =
      address :: registry ∧
    connect_device_command address (address :: registry) bonded2 build2 connect2 =
      { result := .ok (),
        events := [.status ⟨address, "already_connected", none⟩],
        registry := address :: registry, spawned := false } ∧
    (address :: registry).count address = 1 ∧
    touchesTransport (connect_trace true b1 b2 b3 b4) = false := by
  refine ⟨?_, ?_, ?_, ?_⟩
  · simp [connect_device_command, habs, hfound, insertKey]
  · simp [connect_device_command]
  · simp [List.count_cons_self, List.count_eq_zero, habs]
  · simp [connect_trace, touchesTransport, Act.isBlockingTransport]

/-- Witness for C4 at a concrete input. -/
theorem connect_already_connected_witness :
    (connect_device_command "AA" ["BB"] (.ok ["AA"]) (.ok ()) (.ok ())).registry =
      "AA" :: ["BB"] ∧
    connect_device_command "AA" ("AA" :: ["BB"]) (.error "z") (.error "z") (.error "z") =
      { result := .ok (),
        events := [.status ⟨"AA", "already_connected", none⟩],
        registry := "AA" :: ["BB"], spawned := false } ∧
    ("AA" :: ["BB"]).count "AA" = 1 ∧
    touchesTransport (connect_trace true false false false false) = false :=
  connect_already_connected "AA" ["BB"] ["AA"] (.error "z") (.error "z") (.error "z")
    false false false false (by simp) (by simp)

/-- C5: whatever the write and flush outcomes, `send_data_command` leaves the
registry exactly as it was and emits no events; and a connect never removes
an already-present record, so only the receive loop or an explicit
disconnect removes records. -/
theorem send_never_mutates_registry (address p : PeerId) (data : List Nat)
    (registry : Registry) (writeRes flushRes : Except String Unit)
    (bonded : Except String (List PeerId)) (buildRes connectRes : Except String Unit) :
    (send_data_command address data registry writeRes flushRes).registry = registry ∧
    (send_data_command address data registry writeRes flushRes).events = [] ∧
    (p ∈ registry →
      p ∈ (connect_device_command address registry bonded buildRes connectRes).registry) := by
  refine ⟨?_, ?_, ?_⟩
  · unfold send_data_command
    cases writeRes <;> cases flushRes <;> split <;> simp
  · unfold send_data_command
    cases writeRes <;> cases flushRes <;> split <;> simp
  · intro hp
    unfold connect_device_command
    split
    · exact hp
    · cases bonded with
      | error e => exact hp
      | ok devs =>
        dsimp only
        split
        · cases buildRes with
          | error e => exact hp
          | ok u =>
            cases connectRes with
            | error e => exact hp
            | ok u => exact mem_insertKey address p registry hp
        · exact hp

theorem dataPayloads_append (l1 l2 : List Event) :
    dataPayloads (l1 ++ l2) = dataPayloads l1 ++ dataPayloads l2 := by
  induction l1 with
  | nil => rfl
  | cons a rest ih => cases a <;> simp [dataPayloads, ih]

theorem dataPayloads_loopBody (address : PeerId) (steps : List ReadStep) :
    dataPayloads (loopBody address steps).1 = specDataReads steps := by
  induction steps with
  | nil => rfl
  | cons step rest ih =>
    cases step with
    | ok bytes sc =>
      by_cases h : bytes.length > 0
      · simp [loopBody, specDataReads, h, dataPayloads, ih]
      · cases sc <;> simp [loopBody, specDataReads, h, dataPayloads, ih]
    | timeout sc => cases sc <;> simp [loopBody, specDataReads, dataPayloads, ih]
    | fatal e => simp [loopBody, specDataReads, dataPayloads]

/-- C6: the read thread emits exactly one data event per successful
non-empty read, carrying those bytes in the order the reads occurred; when
the loop terminates it removes the address from the registry (a no-op, not
an error, when the address is already absent) and the `disconnected` event
is the last event it emits. -/
theorem readThread_contract (address : PeerId) (steps : List ReadStep)
    (registry : Registry) :
    dataPayloads (readThread address steps registry).1 = specDataReads steps ∧
    ((loopBody address steps).2 = true →
      (readThread address steps registry).2 = removeKey address registry ∧
      address ∉ (readThread address steps registry).2 ∧
      (readThread address steps registry).1.getLast? =
        some (.status ⟨address, "disconnected", none⟩)) ∧
    (address ∉ registry → removeKey address registry = registry) := by
  refine ⟨?_, ?_, removeKey_of_not_mem address registry⟩
  · by_cases ht : (loopBody address steps).2 = true
    · simp [readThread, ht, dataPayloads_append, dataPayloads, dataPayloads_loopBody]
    · simp [readThread, ht, dataPayloads_loopBody]
  · intro ht
    refine ⟨?_, ?_, ?_⟩
    · simp [readThread, ht]
    · simp [readThread, ht, removeKey_not_mem]
    · simp [readThread, ht, List.getLast?_concat]

/-- Witness for C6 at a concrete input: a non-empty read, a zero-byte read,
a timeout and a fatal error, with the address absent from the registry (so
the cleanup removal is exercised as a no-op). -/
theorem readThread_contract_witness :
    dataPayloads (readThread "AA"
      [.ok [65, 84] true, .ok [] true, .timeout true, .fatal "broken"] ["BB"]).1 =
      specDataReads [.ok [65, 84] true, .ok [] true, .timeout true, .fatal "broken"] ∧
    (readThread "AA"
      [.ok [65, 84] true, .ok [] true, .timeout true, .fatal "broken"] ["BB"]).2 =
      removeKey "AA" ["BB"] ∧
    "AA" ∉ (readThread "AA"
      [.ok [65, 84] true, .ok [] true, .timeout true, .fatal "broken"] ["BB"]).2 ∧
    (readThread "AA"
      [.ok [65, 84] true, .ok [] true, .timeout true, .fatal "broken"] ["BB"]).1.getLast? =
      some (.status ⟨"AA", "disconnected", none⟩) ∧
    removeKey "AA" ["BB"] = ["BB"] := by
  have h := readThread_contract "AA"
    [.ok [65, 84] true, .ok [] true, .timeout true, .fatal "broken"] ["BB"]
  have h2 := h.2.1 (by rfl)
  exact ⟨h.1, h2.1, h2.2.1, h2.2.2, h.2.2 (by simp)⟩

/-- C7 counterexample: the timeout branch of the read loop performs no pause
at all, while the zero-byte branch sleeps 50 ms, so the timeout branch is
not handled identically to the zero-byte branch with its bounded delay. -/
theorem timeout_has_no_pause :
    ((iterTrace (.timeout true)).any Act.isSleep) = false ∧
    ((iterTrace (.ok [] true)).any Act.isSleep) = true ∧
    iterTrace (.timeout true) ≠ iterTrace (.ok [] true) := by
  decide

/-- C7 amended: a timeout is never fatal and behaves exactly like the
zero-byte read at the event/termination level (release the lock, re-check
is-connected, terminate when it reports false, continue otherwise), but its
action trace is the zero-byte trace with the sleep removed: the loop does
not pause before re-checking. -/
theorem timeout_like_zero_read_except_pause (address : PeerId)
    (rest : List ReadStep) (sc : Bool) :
    loopBody address (.timeout sc :: rest) = loopBody address (.ok [] sc :: rest) ∧
    iterTrace (.timeout sc) = (iterTrace (.ok [] sc)).filter (fun a => !a.isSleep) ∧
    loopBody address (.timeout true :: rest) = loopBody address rest ∧
    loopBody address (.timeout false :: rest) = ([], true) := by
  refine ⟨?_, ?_, ?_, ?_⟩
  · cases sc <;> simp [loopBody]
  · cases sc <;> rfl
  · simp [loopBody]
  · simp [loopBody]

/-- Witness for C5 at a concrete input (discharging the implication). -/
theorem send_never_mutates_registry_witness :
    (send_data_command "AA" [7] ["AA"] (.error "w") (.ok ())).registry = ["AA"] ∧
    (send_data_command "AA" [7] ["AA"] (.error "w") (.ok ())).events = [] ∧
    ("AA" : PeerId) ∈ (connect_device_command "AA" ["AA"] (.ok []) (.ok ()) (.ok ())).registry :=
  ⟨(send_never_mutates_registry "AA" "AA" [7] ["AA"] (.error "w") (.ok ()) (.ok []) (.ok ()) (.ok ())).1,
   (send_never_mutates_registry "AA" "AA" [7] ["AA"] (.error "w") (.ok ()) (.ok []) (.ok ()) (.ok ())).2.1,
   (send_never_mutates_registry "AA" "AA" [7] ["AA"] (.error "w") (.ok ()) (.ok []) (.ok ()) (.ok ())).2.2 (by simp)⟩

/-- C8 counterexample: a connect that fails because the peer is not among
the bonded devices emits no lifecycle event at all, and a disconnect emits
no lifecycle event on any of its paths (successful close or unknown peer),
contradicting the claim that each of these paths emits exactly one. -/
theorem lifecycle_not_always_emitted :
    (connect_device_command "AA" [] (.ok []) (.ok ()) (.ok ())).result =
      .error "Device not found among bonded devices" ∧
    (connect_device_command "AA" [] (.ok []) (.ok ()) (.ok ())).events = [] ∧
    (disconnect_device_command "AA" ["AA"] (.ok ())).events = [] ∧
    (disconnect_device_command "AA" ["AA"] (.error "x")).events = [] ∧
    (disconnect_device_command "AA" [] (.ok ())).events = [] := by
  refine ⟨rfl, rfl, ?_, ?_, rfl⟩ <;> simp [disconnect_device_command, removeKey]

/-- C8 amended: connect emits exactly one lifecycle event on its
already-connected, connection-failed and connected paths and none on the
discovery-failure, build-failure or peer-not-found paths; disconnect itself
emits none on any path (the `disconnected` event comes from the terminating
receive loop); send emits none and returns its result synchronously. -/
theorem lifecycle_emission_per_path (address : PeerId) (registry : Registry)
    (devs : List PeerId) (e : String) (data : List Nat)
    (buildRes connectRes closeRes writeRes flushRes : Except String Unit) :
    (send_data_command address data registry writeRes flushRes).events = [] ∧
    (disconnect_device_command address registry closeRes).events = [] ∧
    (connect_device_command address registry (.error e) buildRes connectRes).events.length =
      (if registry.contains address then 1 else 0) ∧
    (connect_device_command address registry (.ok devs) (.error e) connectRes).events.length =
      (if registry.contains address then 1 else 0) ∧
    (connect_device_command address registry (.ok devs) (.ok ()) connectRes).events.length =
      (if registry.contains address then 1 else if devs.contains address then 1 else 0) := by
  refine ⟨?_, ?_, ?_, ?_, ?_⟩
  · unfold send_data_command
    cases writeRes <;> cases flushRes <;> split <;> simp
  · unfold disconnect_device_command
    cases closeRes <;> split <;> simp
  · unfold connect_device_command
    split <;> simp
  · unfold connect_device_command
    split
    · simp
    · dsimp only
      split <;> simp_all
  · unfold connect_device_command
    split
    · simp
    · dsimp only
      split
      · cases connectRes <;> simp_all
      · simp_all

/-- C9 counterexample: in `send_data_command` the transport write and flush
run while the registry read lock is held, and in `disconnect_device_command`
the transport close runs while the registry write lock is held, so a
registry lock is held across blocking transport operations. -/
theorem registry_lock_held_during_blocking :
    someBlockingUnderReg (send_trace true true) = true ∧
    noRegDuringBlocking (send_trace true true) = false ∧
    someBlockingUnderReg (disconnect_trace true) = true ∧
    noRegDuringBlocking (disconnect_trace true) = false := by
  decide

/-- C9 amended: no registry lock is held during the transport connect inside
connect or during the reads of the receive loop, and the per-handle lock is
held across every blocking transport operation; but send's write and flush
run under the registry read lock and disconnect's close runs under the
registry write lock. -/
theorem iterTrace_cases (step : ReadStep) :
    iterTrace step = [.handleLock, .tRead, .handleUnlock] ∨
    iterTrace step = [.handleLock, .tRead, .handleUnlock, .sleepMs 50,
      .handleLock, .tIsConnected, .handleUnlock] ∨
    iterTrace step = [.handleLock, .tRead, .handleUnlock, .sleepMs 50,
      .handleLock, .tIsConnected, .handleUnlock, .brk] ∨
    iterTrace step = [.handleLock, .tRead, .handleUnlock,
      .handleLock, .tIsConnected, .handleUnlock] ∨
    iterTrace step = [.handleLock, .tRead, .handleUnlock,
      .handleLock, .tIsConnected, .handleUnlock, .brk] ∨
    iterTrace step = [.handleLock, .tRead, .handleUnlock, .brk] := by
  cases step with
  | ok bytes sc =>
    by_cases h : bytes.length > 0
    · exact Or.inl (by simp [iterTrace, h])
    · cases sc
      · exact Or.inr (Or.inr (Or.inl (by simp [iterTrace, h])))
      · exact Or.inr (Or.inl (by simp [iterTrace, h]))
  | timeout sc =>
    cases sc
    · exact Or.inr (Or.inr (Or.inr (Or.inr (Or.inl rfl))))
    · exact Or.inr (Or.inr (Or.inr (Or.inl rfl)))
  | fatal e =>
    exact Or.inr (Or.inr (Or.inr (Or.inr (Or.inr rfl))))

theorem lock_discipline (p b1 b2 b3 b4 w : Bool) (step : ReadStep) :
    noRegDuringBlocking (connect_trace p b1 b2 b3 b4) = true ∧
    noRegDuringBlocking (iterTrace step) = true ∧
    someBlockingUnderReg (send_trace true w) = true ∧
    someBlockingUnderReg (disconnect_trace true) = true ∧
    handleHeldDuringBlocking (connect_trace p b1 b2 b3 b4) = true ∧
    handleHeldDuringBlocking (send_trace p w) = true ∧
    handleHeldDuringBlocking (disconnect_trace p) = true ∧
    handleHeldDuringBlocking (iterTrace step) = true := by
  have hiter1 : noRegDuringBlocking (iterTrace step) = true := by
    rcases iterTrace_cases step with h | h | h | h | h | h <;> rw [h] <;> decide
  have hiter2 : handleHeldDuringBlocking (iterTrace step) = true := by
    rcases iterTrace_cases step with h | h | h | h | h | h <;> rw [h] <;> decide
  refine ⟨?_, hiter1, ?_, ?_, ?_, ?_, ?_, hiter2⟩ <;>
    cases p <;> cases b1 <;> cases b2 <;> cases b3 <;> cases b4 <;> cases w <;> decide

/-- C10: in the simplified variant, once the peer is found among the bonded
devices and the socket is built, `connect_to_device` returns success no
matter what the later socket connect reports, because the connect runs in
the spawned thread; a connect failure there produces only a log entry. -/
theorem connect_to_device_hides_connect_failure (device_addr uuid : String)
    (devs : List String) (connectRes writeRes : Except String Unit)
    (readRes : Except String (List Nat)) (e : String)
    (hfound : device_addr ∈ devs) :
    connect_to_device device_addr uuid (.ok devs) (.ok ()) connectRes = .ok () ∧
    bt_thread_logs (.error e) writeRes readRes = [.connectFailed e] := by
  constructor
  · simp [connect_to_device, hfound]
  · rfl

/-- Witness for C10 at a concrete input. -/
theorem connect_to_device_hides_connect_failure_witness :
    connect_to_device "AA" "uuid-1" (.ok ["AA"]) (.ok ()) (.error "refused") = .ok () ∧
    bt_thread_logs (.error "refused") (.ok ()) (.ok [1]) = [.connectFailed "refused"] :=
  connect_to_device_hides_connect_failure "AA" "uuid-1" ["AA"] (.error "refused")
    (.ok ()) (.ok [1]) "refused" (by simp)

end TauriBluetooth
